import Mathlib

/-!
Verification of the photo lightbox / viewer core of the photographer
portfolio site.

The embedding follows the source components:

* `LightboxContext` (the `LightboxProvider` in the context module): the
  global viewer state `isOpen` / `photos` / `currentIndex` and its five
  mutators `openLightbox`, `closeLightbox`, `nextPhoto`, `prevPhoto` and
  `setCurrentIndex`.
* `Lightbox.tsx`: the keyboard handler (`handleKeyDown`) over the surface
  state (`showInfo`, `imageLoaded`) and the derived image request
  (`getQuality`, the `urlFor(...).width(1920).quality(...)` chain).
* `InfoPanel.tsx`: the date formatting (`formatDate` / `displayDate`) and
  the tag links of the desktop sidebar and the mobile bottom sheet.

JS numbers that are used as indices are modelled as `Int` (no mutator
clamps or truncates them); absent JS properties are modelled as `Option`.
-/

namespace Gallery

/-- A collection tag as the metadata panel receives it.  The GROQ queries
of the repository project tags as `tags[]-> ...` with slug flattened to
the string `slug.current`, so a dereferenced tag carries `id`, `name` and
a flattened string `slug`; a bare, un-dereferenced reference instead
carries only `ref` (the source field `_ref`).  Absent JS properties are
`none`. -/
structure Tag where
  id : Option String
  ref : Option String
  name : Option String
  slug : Option String
  deriving Repr, DecidableEq

/-- A photo document as delivered to the viewer (fields of the `Photo`
interface in `types/sanity.ts` that the lightbox components read).
`image` stands for the opaque Sanity image descriptor passed to `urlFor`;
`createdAt` models the required `_createdAt` string. -/
structure Photo where
  id : String
  title : String
  image : String
  altText : Option String
  caption : Option String
  location : Option String
  displayQuality : Option String
  watermarkEnabled : Bool
  featured : Bool
  tags : Option (List Tag)
  takenAt : Option String
  createdAt : String
  deriving Repr, DecidableEq

/-- The state held by `LightboxProvider`: the three `useState` hooks
`isOpen`, `photos` and `currentIndex`.  `currentIndex` is a JS number and
no operation clamps it, so it is modelled as `Int`. -/
structure LightboxState where
  isOpen : Bool
  photos : List Photo
  currentIndex : Int
  deriving Repr, DecidableEq

/-- The initial provider state: `useState(false)`, `useState([])`,
`useState(0)`. -/
def initialState : LightboxState :=
  { isOpen := false, photos := [], currentIndex := 0 }

/-- `openLightbox(newPhotos, startIndex)` from the context provider: it
unconditionally stores the photos, stores the start index and sets
`isOpen` to `true` (the `document.body` scroll side effect is outside the
model).  There is no validation of the arguments in the source. -/
def openLightbox (s : LightboxState) (newPhotos : List Photo)
    (startIndex : Int) : LightboxState :=
  { s with isOpen := true, photos := newPhotos, currentIndex := startIndex }

/-- `closeLightbox()` from the context provider: sets `isOpen` to `false`
and touches nothing else. -/
def closeLightbox (s : LightboxState) : LightboxState :=
  { s with isOpen := false }

/-- `nextPhoto()` from the context provider:
`prevIndex === photos.length - 1 ? 0 : prevIndex + 1`.  Note that the
source does not consult `isOpen`. -/
def nextPhoto (s : LightboxState) : LightboxState :=
  { s with currentIndex :=
      if s.currentIndex = (s.photos.length : Int) - 1 then 0
      else s.currentIndex + 1 }

/-- `prevPhoto()` from the context provider:
`prevIndex === 0 ? photos.length - 1 : prevIndex - 1`.  Note that the
source does not consult `isOpen`. -/
def prevPhoto (s : LightboxState) : LightboxState :=
  { s with currentIndex :=
      if s.currentIndex = 0 then (s.photos.length : Int) - 1
      else s.currentIndex - 1 }

/-- `setCurrentIndex(index)`, exposed raw through the context provider
value: the bare React state setter, with no range check. -/
def setCurrentIndex (s : LightboxState) (index : Int) : LightboxState :=
  { s with currentIndex := index }

/-- One call to the context API, for reasoning about call sequences. -/
inductive LightboxAction where
  | doOpen (photos : List Photo) (startIndex : Int)
  | doClose
  | doNext
  | doPrev
  | doSeek (index : Int)
  deriving Repr, DecidableEq

/-- Interpretation of one call on the provider state. -/
def step (s : LightboxState) : LightboxAction → LightboxState
  | .doOpen ps i => openLightbox s ps i
  | .doClose => closeLightbox s
  | .doNext => nextPhoto s
  | .doPrev => prevPhoto s
  | .doSeek i => setCurrentIndex s i

/-- Interpretation of a sequence of calls, first call first. -/
def run (s : LightboxState) : List LightboxAction → LightboxState
  | [] => s
  | a :: rest => run (step s a) rest

/-- The documented preconditions of the spec, as a check on the arguments
of a call: `openLightbox` wants a non-empty sequence and an in-range start
index, `setCurrentIndex` wants an in-range index; the other calls take no
arguments.  (The source itself never performs these checks.) -/
def validArgs (s : LightboxState) : LightboxAction → Bool
  | .doOpen ps i =>
      decide (ps ≠ []) && decide (0 ≤ i) && decide (i < (ps.length : Int))
  | .doSeek i =>
      decide (0 ≤ i) && decide (i < (s.photos.length : Int))
  | _ => true

/-- A call sequence all of whose calls satisfy `validArgs` in the state
they are issued in. -/
def validTrace (s : LightboxState) : List LightboxAction → Bool
  | [] => true
  | a :: rest => validArgs s a && validTrace (step s a) rest

/-- The index is inside the photo sequence. -/
def InBounds (s : LightboxState) : Prop :=
  0 ≤ s.currentIndex ∧ s.currentIndex < (s.photos.length : Int)

/-- Inductive invariant of the provider under argument-valid calls: an
open viewer has photos, and whenever photos are present the index is in
range. -/
def Inv (s : LightboxState) : Prop :=
  (s.isOpen = true → s.photos ≠ []) ∧ (s.photos ≠ [] → InBounds s)

/-- The state local to the `Lightbox` component in `Lightbox.tsx`: the
shared provider state plus the `showInfo` and `imageLoaded` hooks. -/
structure SurfaceState where
  lightbox : LightboxState
  showInfo : Bool
  imageLoaded : Bool
  deriving Repr, DecidableEq

/-- The keys the `handleKeyDown` switch in `Lightbox.tsx` distinguishes.
`letterI` covers both cases `i` and `I` of the switch, which share a body. -/
inductive Key where
  | escape
  | arrowRight
  | arrowLeft
  | letterI
  | other (key : String)
  deriving Repr, DecidableEq

/-- `handleKeyDown` from `Lightbox.tsx`.  The surrounding effect returns
early when `!isOpen` (the listener is only attached while the viewer is
open), so a key press on a closed viewer is a no-op.  On Escape the
handler hides the info panel if it is shown, and only otherwise calls
`closeLightbox`; the arrows call `nextPhoto` / `prevPhoto`; `i` toggles
the panel. -/
def handleKeyDown (st : SurfaceState) (k : Key) : SurfaceState :=
  if st.lightbox.isOpen = false then st
  else
    match k with
    | .escape =>
        if st.showInfo then { st with showInfo := false }
        else { st with lightbox := closeLightbox st.lightbox }
    | .arrowRight => { st with lightbox := nextPhoto st.lightbox }
    | .arrowLeft => { st with lightbox := prevPhoto st.lightbox }
    | .letterI => { st with showInfo := !st.showInfo }
    | .other _ => st

/-- `getQuality` from `Lightbox.tsx`: a switch on
`currentPhoto.displayQuality` with cases `high`, `medium`, `low` and a
default of 80 (a switch dispatches on string equality, embedded as an
equality chain). -/
def getQuality (displayQuality : Option String) : Nat :=
  match displayQuality with
  | some q =>
      if q = "high" then 80
      else if q = "medium" then 60
      else if q = "low" then 40
      else 80
  | none => 80

/-- The parameters the lightbox hands to the external URL builder. -/
structure ImageRequest where
  asset : String
  width : Nat
  quality : Nat
  autoFormat : Bool
  deriving Repr, DecidableEq

/-- The `imageUrl` chain in `Lightbox.tsx`:
`urlFor(currentPhoto.image).width(1920).quality(getQuality()).auto(format)`.
The width is the literal 1920 and the quality comes from `getQuality`. -/
def lightboxImageRequest (photo : Photo) : ImageRequest :=
  { asset := photo.image
    width := 1920
    quality := getQuality photo.displayQuality
    autoFormat := true }

/-- Long month names of the `en-US` locale, as `toLocaleDateString` with
the long month option prints them. -/
def monthName : Nat → String
  | 1 => "January"
  | 2 => "February"
  | 3 => "March"
  | 4 => "April"
  | 5 => "May"
  | 6 => "June"
  | 7 => "July"
  | 8 => "August"
  | 9 => "September"
  | 10 => "October"
  | 11 => "November"
  | 12 => "December"
  | _ => ""

/-- Numeric value of a decimal digit character. -/
def digitVal (c : Char) : Nat := c.toNat - 48

/-- JS `new Date(string)` parsing, restricted to the ISO `YYYY-MM-DD`
prefix shapes the CMS produces (`takenAt` is a date, `_createdAt` an ISO
timestamp whose tenth character is `T`).  A string of any other shape is
an Invalid Date, modelled as `none`; crucially, JS `new Date` never
throws on such input. -/
def parseJsDate (s : String) : Option (Nat × Nat × Nat) :=
  match s.toList with
  | y1 :: y2 :: y3 :: y4 :: h1 :: m1 :: m2 :: h2 :: d1 :: d2 :: rest =>
      if y1.isDigit && y2.isDigit && y3.isDigit && y4.isDigit &&
          (h1 == '-') && m1.isDigit && m2.isDigit && (h2 == '-') &&
          d1.isDigit && d2.isDigit &&
          (rest.isEmpty || rest.headD ' ' == 'T') then
        let year := 1000 * digitVal y1 + 100 * digitVal y2 +
          10 * digitVal y3 + digitVal y4
        let month := 10 * digitVal m1 + digitVal m2
        let day := 10 * digitVal d1 + digitVal d2
        if 1 ≤ month ∧ month ≤ 12 ∧ 1 ≤ day ∧ day ≤ 31 then
          some (year, month, day)
        else none
      else none
  | _ => none

/-- JS `date.toLocaleDateString` for the `en-US` locale with numeric year,
long month and numeric day.  On an Invalid Date this returns the string
`Invalid Date`; it does not raise. -/
def toLocaleDateString (d : Option (Nat × Nat × Nat)) : String :=
  match d with
  | some (y, m, day) => monthName m ++ " " ++ toString day ++ ", " ++ toString y
  | none => "Invalid Date"

/-- `formatDate` from `InfoPanel.tsx`: `if (!dateString) return null`
(absent or empty string), otherwise `new Date(dateString)` followed by
`toLocaleDateString`.  The try/catch of the source has no exception
branch here because neither `new Date` nor `toLocaleDateString` throws on
unparseable input, so the catch returning null is unreachable. -/
def formatDate (dateString : Option String) : Option String :=
  match dateString with
  | none => none
  | some s =>
      if s = "" then none
      else some (toLocaleDateString (parseJsDate s))

/-- JS truthiness of an optional string: `undefined` and `""` are falsy. -/
def jsTruthyString : Option String → Bool
  | none => false
  | some s => !(s == "")

/-- `displayDate` from `InfoPanel.tsx`:
`photo.takenAt ? formatDate(photo.takenAt) : formatDate(photo._createdAt)`. -/
def displayDate (photo : Photo) : Option String :=
  if jsTruthyString photo.takenAt then formatDate photo.takenAt
  else formatDate (some photo.createdAt)

/-- The regex replace of `InfoPanel.tsx` that deletes the first match of
the pattern `^tag[._-]?`: strip one leading `tag` together with at most
one following separator (greedy, so the separator is consumed when
present). -/
def cleanTagSlug (s : String) : String :=
  match s.toList with
  | 't' :: 'a' :: 'g' :: c :: rest =>
      if c == '.' || c == '_' || c == '-' then String.mk rest
      else String.mk (c :: rest)
  | 't' :: 'a' :: 'g' :: [] => ""
  | _ => s

/-- Characters `encodeURIComponent` leaves unescaped: alphanumerics and
`-`, `_`, `.`, `!`, `~`, `*`, `(`, `)` and the apostrophe (code 39). -/
def isUriUnreserved (c : Char) : Bool :=
  c.isAlphanum || c == '-' || c == '_' || c == '.' || c == '!' ||
    c == '~' || c == '*' || c == '(' || c == ')' || c.toNat == 39

/-- Upper-case hexadecimal digit of a value below 16. -/
def hexDigit (n : Nat) : Char :=
  if n < 10 then Char.ofNat (48 + n) else Char.ofNat (55 + n)

/-- JS `encodeURIComponent`, modelled for one-byte (ASCII) characters:
unreserved characters pass through, the rest become `%XX`. -/
def encodeURIComponent (s : String) : String :=
  String.mk
    ((s.toList.map fun c =>
        if isUriUnreserved c then [c]
        else ['%', hexDigit (c.toNat / 16), hexDigit (c.toNat % 16)]).flatten)

/-- Link target built from the slug value the panel computed (`cleanedSlug`
when the value is a string, else `/tag/` of `encodeURIComponent(String(slug))`,
where `String(undefined)` is the text `"undefined"`). -/
def tagHrefFromSlugVal : Option String → String
  | some s => "/tag/" ++ cleanTagSlug s
  | none => "/tag/" ++ encodeURIComponent "undefined"

/-- One rendered tag link of the metadata panel: its `href`, its visible
label, and whether its `onClick` calls `closeLightbox`. -/
structure RenderedTagLink where
  href : String
  label : String
  closesLightboxOnClick : Bool
  deriving Repr, DecidableEq

/-- Label of a tag link: `name ?? _ref` with the literal string `tag` as
the final fallback. -/
def tagLabel (tag : Tag) : String :=
  ((tag.name.orElse fun _ => tag.ref).getD "tag")

/-- The desktop-sidebar tag link of `InfoPanel.tsx`: the slug value is
`slug ?? _ref` (the queries deliver `slug` as a flattened string), and
the link carries an `onClick` handler that calls `closeLightbox`. -/
def desktopTagLink (tag : Tag) : RenderedTagLink :=
  { href := tagHrefFromSlugVal (tag.slug.orElse fun _ => tag.ref)
    label := tagLabel tag
    closesLightboxOnClick := true }

/-- The mobile-bottom-sheet tag link of `InfoPanel.tsx`: the slug value is
`slug?.current ?? _ref` — on the flattened string shape the queries
deliver, `slug?.current` is `undefined` (a string has no `current`
property), so only `_ref` remains — and this link has no `onClick`
handler at all. -/
def mobileTagLink (tag : Tag) : RenderedTagLink :=
  { href := tagHrefFromSlugVal tag.ref
    label := tagLabel tag
    closesLightboxOnClick := false }

/-- All tag links the metadata panel renders for a photo: the desktop
sidebar list and the mobile bottom-sheet list, each rendered when
`photo.tags && photo.tags.length > 0`. -/
def renderedTagLinks (photo : Photo) : List RenderedTagLink :=
  match photo.tags with
  | none => []
  | some ts =>
      if ts.length > 0 then ts.map desktopTagLink ++ ts.map mobileTagLink
      else []

/-- A concrete photo for witnesses. -/
def demoPhoto : Photo :=
  { id := "p1"
    title := "Dawn"
    image := "image-abc"
    altText := none
    caption := none
    location := none
    displayQuality := some "high"
    watermarkEnabled := false
    featured := false
    tags := none
    takenAt := some "2024-01-15"
    createdAt := "2024-02-01T09:30:00Z" }

/-- A second concrete photo for witnesses. -/
def demoPhoto2 : Photo :=
  { demoPhoto with id := "p2", title := "Dusk", displayQuality := some "low" }

/-- A concrete dereferenced tag, as the queries deliver one. -/
def demoTag : Tag :=
  { id := some "t1", ref := none, name := some "Portraits",
    slug := some "portraits" }

/-- A concrete photo carrying `demoTag`. -/
def demoTagPhoto : Photo := { demoPhoto with tags := some [demoTag] }

/-- A concrete photo whose `takenAt` does not parse as a date. -/
def garbageDatePhoto : Photo := { demoPhoto with takenAt := some "not-a-date" }

/-- A concrete open viewer state for witnesses. -/
def demoOpenState : LightboxState :=
  { isOpen := true, photos := [demoPhoto, demoPhoto2], currentIndex := 1 }

/-- A concrete open surface state with the info panel shown. -/
def demoSurface : SurfaceState :=
  { lightbox := demoOpenState, showInfo := true, imageLoaded := true }

theorem nextPhoto_photos (s : LightboxState) : (nextPhoto s).photos = s.photos :=
rfl

theorem prevPhoto_photos (s : LightboxState) : (prevPhoto s).photos = s.photos :=
rfl

theorem nextPhoto_currentIndex_mod (s : LightboxState)
(h0 : 0 ≤ s.currentIndex) (h1 : s.currentIndex < (s.photos.length : Int)) :
(nextPhoto s).currentIndex = (s.currentIndex + 1) % (s.photos.length : Int) := by
  unfold nextPhoto
  dsimp only
  split
  · rename_i h
    rw [h]
    have e : (s.photos.length : Int) - 1 + 1 = (s.photos.length : Int) := by ring
    rw [e, Int.emod_self]
  · rename_i h
    exact (Int.emod_eq_of_lt (by omega) (by omega)).symm

theorem prevPhoto_currentIndex_mod (s : LightboxState)
(h0 : 0 ≤ s.currentIndex) (h1 : s.currentIndex < (s.photos.length : Int)) :
(prevPhoto s).currentIndex =
(s.currentIndex - 1 + (s.photos.length : Int)) % (s.photos.length : Int) := by
  unfold prevPhoto
  dsimp only
  split
  · rename_i h
    rw [h]
    have e : (0 : Int) - 1 + (s.photos.length : Int) = (s.photos.length : Int) - 1 := by
      ring
    rw [e, Int.emod_eq_of_lt (by omega) (by omega)]
  · rename_i h
    have e : (s.currentIndex - 1 + (s.photos.length : Int)) % (s.photos.length : Int) =
        (s.currentIndex - 1) % (s.photos.length : Int) := by
      have e1 := Int.add_mul_emod_self_left (s.currentIndex - 1) (s.photos.length : Int) 1
      rw [mul_one] at e1
      exact e1
    rw [e]
    exact (Int.emod_eq_of_lt (by omega) (by omega)).symm

theorem nextPhoto_inBounds (s : LightboxState)
(h0 : 0 ≤ s.currentIndex) (h1 : s.currentIndex < (s.photos.length : Int)) :
0 ≤ (nextPhoto s).currentIndex ∧
(nextPhoto s).currentIndex < ((nextPhoto s).photos.length : Int) := by
  have hn : (0 : Int) < (s.photos.length : Int) := by omega
  rw [show ((nextPhoto s).photos.length : Int) = (s.photos.length : Int) from rfl,
    nextPhoto_currentIndex_mod s h0 h1]
  exact ⟨Int.emod_nonneg _ (by omega), Int.emod_lt_of_pos _ hn⟩

theorem prevPhoto_inBounds (s : LightboxState)
(h0 : 0 ≤ s.currentIndex) (h1 : s.currentIndex < (s.photos.length : Int)) :
0 ≤ (prevPhoto s).currentIndex ∧
(prevPhoto s).currentIndex < ((prevPhoto s).photos.length : Int) := by
  have hn : (0 : Int) < (s.photos.length : Int) := by omega
  rw [show ((prevPhoto s).photos.length : Int) = (s.photos.length : Int) from rfl,
    prevPhoto_currentIndex_mod s h0 h1]
  exact ⟨Int.emod_nonneg _ (by omega), Int.emod_lt_of_pos _ hn⟩

theorem nextPhoto_iterate (k : Nat) (s : LightboxState)
(h0 : 0 ≤ s.currentIndex) (h1 : s.currentIndex < (s.photos.length : Int)) :
(nextPhoto^[k] s).photos = s.photos ∧
(nextPhoto^[k] s).currentIndex =
(s.currentIndex + (k : Int)) % (s.photos.length : Int) := by
  induction k generalizing s with
  | zero =>
      refine ⟨rfl, ?_⟩
      simpa using (Int.emod_eq_of_lt h0 h1).symm
  | succ k ih =>
      obtain ⟨hb0, hb1⟩ := nextPhoto_inBounds s h0 h1
      obtain ⟨hp, hi⟩ := ih (nextPhoto s) hb0 hb1
      rw [Function.iterate_succ_apply]
      refine ⟨by rw [hp, nextPhoto_photos], ?_⟩
      rw [hi, nextPhoto_photos, nextPhoto_currentIndex_mod s h0 h1,
        Int.emod_add_emod]
      congr 1
      push_cast
      ring

theorem inv_initial : Inv initialState :=
⟨fun h => Bool.noConfusion h, fun h => absurd rfl h⟩

theorem inv_step (s : LightboxState) (a : LightboxAction) (hs : Inv s)
(ha : validArgs s a = true) : Inv (step s a) := by
  have h1 : s.isOpen = true → s.photos ≠ [] := hs.1
  have h2 : s.photos ≠ [] →
      0 ≤ s.currentIndex ∧ s.currentIndex < (s.photos.length : Int) := hs.2
  cases a with
  | doOpen ps i =>
      simp only [validArgs, Bool.and_eq_true, decide_eq_true_eq] at ha
      exact ⟨fun _ => ha.1.1, fun _ => ⟨ha.1.2, ha.2⟩⟩
  | doClose =>
      exact ⟨fun h => Bool.noConfusion h, h2⟩
  | doNext =>
      exact ⟨h1, fun hne => nextPhoto_inBounds s (h2 hne).1 (h2 hne).2⟩
  | doPrev =>
      exact ⟨h1, fun hne => prevPhoto_inBounds s (h2 hne).1 (h2 hne).2⟩
  | doSeek i =>
      simp only [validArgs, Bool.and_eq_true, decide_eq_true_eq] at ha
      exact ⟨h1, fun _ => ha⟩

theorem inv_run (acts : List LightboxAction) (s : LightboxState)
(hs : Inv s) (h : validTrace s acts = true) : Inv (run s acts) := by
  induction acts generalizing s with
  | nil => exact hs
  | cons a rest ih =>
      simp only [validTrace, Bool.and_eq_true] at h
      exact ih (step s a) (inv_step s a hs h.1) h.2

/-- C1 (counterexample): the invariant of the claim fails on the code as
stated.  From the initial state, the single call `openLightbox([], 0)` is
a reachable sequence with arbitrary arguments, and it yields a state with
`isOpen = true` and an empty `photos` sequence, because `openLightbox`
performs no validation. -/
theorem C1_counterexample_open_empty :
(run initialState [LightboxAction.doOpen [] 0]).isOpen = true ∧
(run initialState [LightboxAction.doOpen [] 0]).photos = [] :=
⟨rfl, rfl⟩

/-- C1 (amended): for every state reachable from the initial viewer state
by a sequence of calls in which every `openLightbox` call satisfies its
documented precondition (non-empty sequence, in-range start index) and
every `setCurrentIndex` call passes an in-range index (`closeLightbox`,
`nextPhoto`, `prevPhoto` unrestricted), whenever `isOpen` is true the
photos sequence is non-empty and `0 ≤ currentIndex < photos.length`. -/
theorem C1_invariant_under_valid_calls (acts : List LightboxAction)
(h : validTrace initialState acts = true)
(hopen : (run initialState acts).isOpen = true) :
(run initialState acts).photos ≠ [] ∧
0 ≤ (run initialState acts).currentIndex ∧
(run initialState acts).currentIndex <
((run initialState acts).photos.length : Int) := by
  have hinv := inv_run acts initialState inv_initial h
  have hne := hinv.1 hopen
  exact ⟨hne, (hinv.2 hne).1, (hinv.2 hne).2⟩

/-- Witness for C1: a concrete valid call sequence (open two photos at
index 1, then advance) ends open with non-empty photos and the index in
range. -/
theorem C1_invariant_under_valid_calls_witness :
validTrace initialState
[LightboxAction.doOpen [demoPhoto, demoPhoto2] 1, LightboxAction.doNext] = true ∧
((run initialState
[LightboxAction.doOpen [demoPhoto, demoPhoto2] 1, LightboxAction.doNext]).photos ≠ [] ∧
0 ≤ (run initialState
[LightboxAction.doOpen [demoPhoto, demoPhoto2] 1, LightboxAction.doNext]).currentIndex ∧
(run initialState
[LightboxAction.doOpen [demoPhoto, demoPhoto2] 1, LightboxAction.doNext]).currentIndex <
((run initialState
[LightboxAction.doOpen [demoPhoto, demoPhoto2] 1, LightboxAction.doNext]).photos.length : Int)) :=
⟨by decide,
  C1_invariant_under_valid_calls
    [LightboxAction.doOpen [demoPhoto, demoPhoto2] 1, LightboxAction.doNext]
    (by decide) (by decide)⟩

/-- C2 (counterexample): a call violating the precondition is not
ignored.  `openLightbox([], 0)` from the closed initial state changes the
state: `isOpen` flips from false to true. -/
theorem C2_counterexample_empty_open_not_ignored :
initialState.isOpen = false ∧
(openLightbox initialState [] 0).isOpen = true :=
⟨rfl, rfl⟩

/-- C2 (amended): `openLightbox` performs no validation at all.  For every
prior state and every argument pair, including precondition-violating
ones such as an empty sequence, the call sets `isOpen` to true, replaces
`photos` with the given sequence and sets `currentIndex` to the given
start index. -/
theorem C2_open_is_unconditional (s : LightboxState) (ps : List Photo) (i : Int) :
openLightbox s ps i = { isOpen := true, photos := ps, currentIndex := i } :=
rfl

/-- C3: for every sequence with `sequence.length > 0` and every start
index with `0 ≤ startIndex < sequence.length`, after
`openLightbox(sequence, startIndex)` the state satisfies `isOpen = true`,
`photos = sequence` and `currentIndex = startIndex`. -/
theorem C3_open_valid_sets_state (s : LightboxState) (ps : List Photo) (i : Int)
(_hne : ps ≠ []) (_h0 : 0 ≤ i) (_h1 : i < (ps.length : Int)) :
(openLightbox s ps i).isOpen = true ∧
(openLightbox s ps i).photos = ps ∧
(openLightbox s ps i).currentIndex = i :=
⟨rfl, rfl, rfl⟩

/-- Witness for C3 at the concrete call `openLightbox([demoPhoto], 0)`. -/
theorem C3_open_valid_sets_state_witness :
([demoPhoto] : List Photo) ≠ [] ∧
((openLightbox initialState [demoPhoto] 0).isOpen = true ∧
(openLightbox initialState [demoPhoto] 0).photos = [demoPhoto] ∧
(openLightbox initialState [demoPhoto] 0).currentIndex = 0) :=
⟨by decide,
  C3_open_valid_sets_state initialState [demoPhoto] 0 (by decide) (by decide)
    (by decide)⟩

/-- C4: for every open state with non-empty photos and an in-range index,
`nextPhoto` sets the index to `(currentIndex + 1) mod photos.length`,
`prevPhoto` sets it to `(currentIndex - 1 + photos.length) mod
photos.length`, `photos.length` repeated `nextPhoto` calls return the
index to its starting value, and `prevPhoto` immediately after
`openLightbox(seq, 0)` yields index `seq.length - 1`. -/
theorem C4_next_prev_wraparound :
(∀ s : LightboxState, s.isOpen = true → s.photos ≠ [] →
  0 ≤ s.currentIndex → s.currentIndex < (s.photos.length : Int) →
  (nextPhoto s).currentIndex = (s.currentIndex + 1) % (s.photos.length : Int) ∧
  (prevPhoto s).currentIndex =
    (s.currentIndex - 1 + (s.photos.length : Int)) % (s.photos.length : Int) ∧
  (nextPhoto^[s.photos.length] s).currentIndex = s.currentIndex) ∧
(∀ (s : LightboxState) (seq : List Photo), seq ≠ [] →
  (prevPhoto (openLightbox s seq 0)).currentIndex = (seq.length : Int) - 1) := by
  constructor
  · intro s _ hne h0 h1
    refine ⟨nextPhoto_currentIndex_mod s h0 h1,
      prevPhoto_currentIndex_mod s h0 h1, ?_⟩
    obtain ⟨-, hi⟩ := nextPhoto_iterate s.photos.length s h0 h1
    rw [hi]
    have e1 := Int.add_mul_emod_self_left s.currentIndex (s.photos.length : Int) 1
    rw [mul_one] at e1
    rw [e1]
    exact Int.emod_eq_of_lt h0 h1
  · intro s seq hne
    simp [openLightbox, prevPhoto]

/-- Witness for C4 at a concrete open two-photo state with index 1 and at
the concrete call `openLightbox([demoPhoto], 0)` followed by `prevPhoto`. -/
theorem C4_next_prev_wraparound_witness :
((nextPhoto demoOpenState).currentIndex =
  (demoOpenState.currentIndex + 1) % (demoOpenState.photos.length : Int) ∧
(prevPhoto demoOpenState).currentIndex =
  (demoOpenState.currentIndex - 1 + (demoOpenState.photos.length : Int)) %
    (demoOpenState.photos.length : Int) ∧
(nextPhoto^[demoOpenState.photos.length] demoOpenState).currentIndex =
  demoOpenState.currentIndex) ∧
(prevPhoto (openLightbox initialState [demoPhoto] 0)).currentIndex =
(([demoPhoto] : List Photo).length : Int) - 1 :=
⟨C4_next_prev_wraparound.1 demoOpenState rfl (by decide) (by decide) (by decide),
  C4_next_prev_wraparound.2 initialState [demoPhoto] (by decide)⟩

/-- C5 (counterexample): `nextPhoto` is not a no-op while closed.  Open a
two-photo sequence at index 0, close, then call `nextPhoto`: the index
changes from 0 to 1 even though `isOpen` is false. -/
theorem C5_counterexample_next_after_close :
(closeLightbox (openLightbox initialState [demoPhoto, demoPhoto2] 0)).isOpen = false ∧
(closeLightbox (openLightbox initialState [demoPhoto, demoPhoto2] 0)).currentIndex = 0 ∧
(nextPhoto (closeLightbox (openLightbox initialState [demoPhoto, demoPhoto2] 0))).currentIndex = 1 :=
⟨rfl, rfl, rfl⟩

/-- C5 (amended): `nextPhoto` and `prevPhoto` never consult `isOpen`.
After `closeLightbox` they perform exactly the same index update they
would perform on the open state (closing commutes with stepping), so
`closeLightbox` followed by `nextPhoto` or `prevPhoto` changes
`currentIndex` whenever the open-state call would. -/
theorem C5_nav_acts_regardless_of_isOpen (s : LightboxState) :
nextPhoto (closeLightbox s) = closeLightbox (nextPhoto s) ∧
prevPhoto (closeLightbox s) = closeLightbox (prevPhoto s) ∧
(nextPhoto (closeLightbox s)).currentIndex = (nextPhoto s).currentIndex ∧
(prevPhoto (closeLightbox s)).currentIndex = (prevPhoto s).currentIndex :=
⟨rfl, rfl, rfl, rfl⟩

/-- C6: for every state, `closeLightbox` sets `isOpen` to false, leaves
`photos` and `currentIndex` unchanged, and is idempotent: two calls in a
row produce the same state as one. -/
theorem C6_close_frame_idempotent (s : LightboxState) :
(closeLightbox s).isOpen = false ∧
(closeLightbox s).photos = s.photos ∧
(closeLightbox s).currentIndex = s.currentIndex ∧
closeLightbox (closeLightbox s) = closeLightbox s :=
⟨rfl, rfl, rfl, rfl⟩

/-- C7: for every open-viewer state, Escape with the metadata panel
visible hides the panel and leaves the viewer open; Escape with the panel
hidden calls `closeLightbox`; and a single Escape never both hides the
panel and closes the viewer. -/
theorem C7_escape_two_stage (st : SurfaceState)
(hopen : st.lightbox.isOpen = true) :
(st.showInfo = true →
  (handleKeyDown st Key.escape).showInfo = false ∧
  (handleKeyDown st Key.escape).lightbox.isOpen = true) ∧
(st.showInfo = false →
  (handleKeyDown st Key.escape).lightbox = closeLightbox st.lightbox ∧
  (handleKeyDown st Key.escape).lightbox.isOpen = false ∧
  (handleKeyDown st Key.escape).showInfo = false) ∧
¬(st.showInfo = true ∧ (handleKeyDown st Key.escape).showInfo = false ∧
  (handleKeyDown st Key.escape).lightbox.isOpen = false) := by
  refine ⟨?_, ?_, ?_⟩
  · intro hsi
    constructor
    · simp [handleKeyDown, hopen, hsi]
    · simp [handleKeyDown, hopen, hsi]
  · intro hsi
    refine ⟨?_, ?_, ?_⟩
    · simp [handleKeyDown, hopen, hsi]
    · simp [handleKeyDown, hopen, hsi, closeLightbox]
    · simp [handleKeyDown, hopen, hsi]
  · rintro ⟨hsi, -, hclosed⟩
    simp [handleKeyDown, hopen, hsi] at hclosed

/-- Witness for C7 at a concrete open surface state with the panel
visible: Escape hides the panel and the viewer stays open. -/
theorem C7_escape_two_stage_witness :
demoSurface.lightbox.isOpen = true ∧ demoSurface.showInfo = true ∧
(handleKeyDown demoSurface Key.escape).showInfo = false ∧
(handleKeyDown demoSurface Key.escape).lightbox.isOpen = true :=
⟨rfl, rfl, ((C7_escape_two_stage demoSurface rfl).1 rfl).1,
  ((C7_escape_two_stage demoSurface rfl).1 rfl).2⟩

/-- C8 (code bug evidence): a photo whose `takenAt` is the unparseable
string `not-a-date` has a truthy `takenAt`, the string does not parse as
a date, and yet `displayDate` produces the garbage string `Invalid Date`
(which the panel then renders in its Date field), because JS `new Date`
does not throw and `toLocaleDateString` on an Invalid Date returns that
string instead of raising, making the catch-return-null of the source
unreachable. -/
theorem C8_garbage_date_is_rendered :
jsTruthyString garbageDatePhoto.takenAt = true ∧
parseJsDate "not-a-date" = none ∧
displayDate garbageDatePhoto = some "Invalid Date" :=
⟨rfl, rfl, rfl⟩

/-- C9 (code bug evidence): for a concrete dereferenced tag, the desktop
sidebar link does call `closeLightbox` on activation and targets the URL
`/tag/portraits`, but the mobile bottom-sheet link for the very same tag
— also rendered by the panel — has no `onClick` at all, so activating it
does not invoke `closeLightbox` before navigation. -/
theorem C9_mobile_tag_link_missing_close :
(desktopTagLink demoTag).closesLightboxOnClick = true ∧
(desktopTagLink demoTag).href = "/tag/portraits" ∧
(mobileTagLink demoTag).closesLightboxOnClick = false ∧
mobileTagLink demoTag ∈ renderedTagLinks demoTagPhoto :=
⟨rfl, rfl, rfl, by decide⟩

/-- C10: the lightbox image request always uses the fixed width 1920; the
quality tier maps high to 80, medium to 60 and low to 40; and a missing
or unrecognized `displayQuality` defaults to quality 80. -/
theorem C10_fixed_width_and_quality_map :
(∀ p : Photo, (lightboxImageRequest p).width = 1920 ∧
  (lightboxImageRequest p).quality = getQuality p.displayQuality) ∧
getQuality (some "high") = 80 ∧
getQuality (some "medium") = 60 ∧
getQuality (some "low") = 40 ∧
getQuality none = 80 ∧
(∀ q : String, q ≠ "high" → q ≠ "medium" → q ≠ "low" →
  getQuality (some q) = 80) := by
  refine ⟨fun p => ⟨rfl, rfl⟩, rfl, rfl, rfl, rfl, ?_⟩
  intro q hq1 hq2 hq3
  simp [getQuality, hq1, hq2, hq3]

/-- Witness for C10 at a concrete photo and the concrete unrecognized
tier string `ultra`. -/
theorem C10_fixed_width_and_quality_map_witness :
(lightboxImageRequest demoPhoto).width = 1920 ∧
getQuality (some "ultra") = 80 :=
⟨(C10_fixed_width_and_quality_map.1 demoPhoto).1,
  C10_fixed_width_and_quality_map.2.2.2.2.2 "ultra" (by decide) (by decide)
    (by decide)⟩

end Gallery
